import Mathlib

/-!
Verification of the `idom.client.manage` module: the build-configuration
store, the staged/atomic client rebuild pipeline (`build`, `restore`), and
the read-only build-artifact accessors (`web_module_exports`,
`web_module_url`, `find_client_build_path`).

The Python source is shallowly embedded: the filesystem is a finite list of
(absolute path, optional file content) entries, external subprocesses are
summarised by their captured exit code / stdout / stderr, and the
orchestration functions are modelled as generators of event traces plus a
fold that interprets each event as a state transition.
-/

namespace IdomClient

/-! ## Paths and the filesystem model -/

/-- An absolute filesystem path, as a list of segments from the root. -/
abbrev FsPath := List String

/-- The source constant `APP_DIR = Path(__file__).parent / "app"`: a fixed
absolute directory. -/
def APP_DIR : FsPath := ["idom", "client", "app"]

/-- The source constant `BUILD_DIR = APP_DIR / "build"`. -/
def BUILD_DIR : FsPath := APP_DIR ++ ["build"]

/-- Normalise a path the way the OS walk resolves it on lookup: drop empty
and `"."` segments and resolve each `".."` against the segment before it
(at the root, `".."` stays at the root).  The OS has no lexical collapsing —
its walk fails with ENOENT if the directory reached before a `".."` is
absent — so this normalisation matches `os.stat` exactly on states where
the directory each `".."` steps out of exists; the one `".."`-traversing
state in this file (`escapeFS`) lists that directory (`BUILD_DIR`) and its
whole chain of ancestors. -/
def normPath (p : FsPath) : FsPath :=
  p.foldl
    (fun acc seg =>
      if seg = ".." then acc.dropLast
      else if seg = "." ∨ seg = "" then acc
      else acc ++ [seg])
    []

/-- The filesystem: existing entries, each an absolute (normalised) path
paired with `some content` for a file or `none` for a directory. -/
structure FS where
  entries : List (FsPath × Option String)
deriving DecidableEq

/-- The check `Path.exists()`: the OS resolves the query path and looks it
up (see `normPath` for the scope of the `".."` handling). -/
def fsExists (fs : FS) (p : FsPath) : Bool :=
  fs.entries.any (fun ent => ent.1 == normPath p)

/-- Whether `root` is an ancestor-or-self of `p` (segmentwise). -/
def segsUnder : FsPath → FsPath → Bool
  | [], _ => true
  | _ :: _, [] => false
  | a :: as, b :: bs => a == b && segsUnder as bs

/-- The call `shutil.rmtree(root)` restricted to its effect: every entry at or below
`root` is removed. -/
def fsRemoveTree (fs : FS) (root : FsPath) : FS :=
  ⟨fs.entries.filter (fun ent => !segsUnder root ent.1)⟩

/-- The call `shutil.copytree(src, root)` for a source tree given by its relative
entries: creates `root` and one entry per source entry beneath it. -/
def fsAddTree (fs : FS) (root : FsPath) (tree : List (FsPath × Option String)) : FS :=
  ⟨fs.entries ++ (root, none) :: tree.map (fun ent => (root ++ ent.1, ent.2))⟩

/-- The test `rel_path.startswith("/")`. -/
def startsWithSlash (s : String) : Bool :=
  match s.data with
  | [] => false
  | c :: _ => c = '/'

/-- Python's `rel_path.split("/")`: split at every slash, keeping empty
pieces, so that `"".split("/") = [""]` and `"a//b".split("/") = ["a","","b"]`. -/
def splitSlash (s : String) : List String :=
  let step : List String × String → Char → List String × String := fun acc c =>
    if c = '/' then (acc.1 ++ [acc.2], "") else (acc.1, acc.2.push c)
  let r := s.data.foldl step ([], "")
  r.1 ++ [r.2]

/-- The call `base.joinpath(*segs)` of `pathlib`: empty and `"."` segments are
collapsed away when the path object is constructed; `".."` is kept. -/
def joinpath (base : FsPath) (segs : List String) : FsPath :=
  base ++ segs.filter (fun seg => !(seg = "" ∨ seg = "."))

/-! ## The configuration store

`BuildConfig` and `BuildConfigItem` come from `idom.client.build_config`,
which is not part of the given source; they are modelled from the spec. -/

/-- Modelled from the spec: a `DependencyEntry` of the Configuration Store —
`{ contributor, package_name, alias, extra_exports }`, uniquely identified
by `(contributor, package_name)`. -/
structure BuildConfigItem where
  source_name : String
  package_name : String
  alias_name : String
  extra_exports : List String
deriving DecidableEq

/-- Modelled from the spec: the Configuration Store, a mapping from
`(contributor, package_name)` to entries, kept in insertion order, with an
in-memory view (`items`) and the last persisted on-disk state (`saved`). -/
structure BuildConfig where
  items : List BuildConfigItem
  saved : List BuildConfigItem
deriving DecidableEq

/-- Two entries collide exactly when their `(contributor, package)` keys match. -/
def sameKey (a b : BuildConfigItem) : Bool :=
  a.source_name == b.source_name && a.package_name == b.package_name

/-- Modelled from the spec: staging one entry into the mapping — an entry
for a fresh `(contributor, package_name)` key is appended in insertion
order; an entry for an existing key replaces that entry in place. -/
def insertConfigItem (items : List BuildConfigItem) (it : BuildConfigItem) :
    List BuildConfigItem :=
  if items.any (sameKey it) then
    items.map (fun old => if sameKey it old then it else old)
  else
    items ++ [it]

/-- Modelled from the spec: `BuildConfig.update_config_items` stages a batch
of entries, left to right. -/
def update_config_items (items new : List BuildConfigItem) : List BuildConfigItem :=
  new.foldl insertConfigItem items

/-- Modelled from the spec: `BuildConfig.get_js_dependency_alias` — a pure
lookup returning the alias registered for `(contributor, package_name)`, or
`none` when no entry exists for that pair. -/
def BuildConfig.get_js_dependency_alias (cfg : BuildConfig)
    (source_name package_name : String) : Option String :=
  (cfg.items.find? (fun it =>
    it.source_name == source_name && it.package_name == package_name)).map
    (fun it => it.alias_name)

/-- Modelled from the spec: `BuildConfig.all_js_dependency_aliases`, the
aliases of all entries in insertion order. -/
def BuildConfig.all_js_dependency_aliases (cfg : BuildConfig) : List String :=
  cfg.items.map (fun it => it.alias_name)

/-- Modelled from the spec: `BuildConfig.all_aliased_js_dependencies`, one
aliased package specifier per entry, in insertion order. -/
def BuildConfig.all_aliased_js_dependencies (cfg : BuildConfig) : List String :=
  cfg.items.map (fun it => it.alias_name ++ "@npm:" ++ it.package_name)

/-- Errors surfaced by the pipeline: a failed external tool invocation
(wrapping its decoded stderr), a missing file handed to `shutil.rmtree`,
or a malformed staged manifest. -/
inductive BuildErr where
  | subprocessError (stderr : String)
  | fileNotFound
  | manifestTypeError
deriving DecidableEq

/-- Modelled from the spec: `BuildConfig.transaction()` — the body runs on a
working copy of the in-memory items; on normal exit the working copy is
committed to memory and persisted to disk; on abnormal exit the working copy
is discarded and the store stays at its last persisted state while the
error propagates. -/
def BuildConfig.transaction {E : Type} (cfg : BuildConfig)
    (body : List BuildConfigItem → Except E (List BuildConfigItem)) :
    BuildConfig × Option E :=
  match body cfg.items with
  | Except.ok w => (⟨w, w⟩, none)
  | Except.error e => (cfg, some e)

/-! ## Subprocess wrapper -/

/-- The observable outcome of one external tool invocation. -/
structure SubprocResult where
  exitcode : Nat
  out : String
  err : String
deriving DecidableEq

/-- The wrapper `_run_subprocess`: `subprocess.run(..., check=True)` raises on a
non-zero exit code; the handler re-raises with the decoded stderr as the
error's message.  A zero exit code returns normally. -/
def run_subprocess (r : SubprocResult) : Except BuildErr Unit :=
  if r.exitcode ≠ 0 then Except.error (BuildErr.subprocessError r.err)
  else Except.ok ()

/-! ## Build-artifact accessors -/

/-- Raised for an absolute argument to `find_client_build_path`
(`ValueError` in the source; the spec calls it `InvalidPathError`). -/
inductive PathError where
  | invalidPath
deriving DecidableEq

/-- The accessor `find_client_build_path`: reject an argument starting with `"/"`, then
join the slash-separated segments under `BUILD_DIR` and return the joined
path when it exists, else `None`. -/
def find_client_build_path (fs : FS) (rel_path : String) :
    Except PathError (Option FsPath) :=
  if startsWithSlash rel_path then
    Except.error PathError.invalidPath
  else
    let builtin_path := joinpath BUILD_DIR (splitSlash rel_path)
    if fsExists fs builtin_path then Except.ok (some builtin_path)
    else Except.ok none

/-- The accessor `web_module_url`: resolve the alias; absent alias or absent module file
gives `None`; otherwise the URL one level up from `core_components`. -/
def web_module_url (cfg : BuildConfig) (fs : FS)
    (source_name package_name : String) : Except PathError (Option String) :=
  match cfg.get_js_dependency_alias source_name package_name with
  | none => Except.ok none
  | some dep_alias =>
    match find_client_build_path fs ("web_modules/" ++ dep_alias ++ ".js") with
    | Except.error e => Except.error e
    | Except.ok none => Except.ok none
    | Except.ok (some _) => Except.ok (some ("../web_modules/" ++ dep_alias ++ ".js"))

/-- The accessor `web_module_exports`: resolve the alias and module file, then
statically parse the module's exports.  The parser
(`find_js_module_exports`, not part of the given source) is abstracted as
the function `exportsOf` from file content to exported symbols. -/
def web_module_exports (exportsOf : String → List String) (cfg : BuildConfig)
    (fs : FS) (source_name package_name : String) :
    Except PathError (List String) :=
  match cfg.get_js_dependency_alias source_name package_name with
  | none => Except.ok []
  | some dep_alias =>
    match find_client_build_path fs ("web_modules/" ++ dep_alias ++ ".js") with
    | Except.error e => Except.error e
    | Except.ok none => Except.ok []
    | Except.ok (some module_file) =>
      Except.ok (exportsOf (((fs.entries.find?
        (fun ent => ent.1 == normPath module_file)).bind
        (fun ent => ent.2)).getD ""))

/-! ## The staged bundler manifest (`package.json`) and the merge step -/

/-- A JSON value, as parsed by `open_modifiable_json`. -/
inductive Json where
  | null
  | bool (b : Bool)
  | num (n : Int)
  | str (s : String)
  | arr (xs : List Json)
  | obj (fields : List (String × Json))

/-- Lookup of a key in a JSON object's field list (Python `dict` access). -/
def lookupField : List (String × Json) → String → Option Json
  | [], _ => none
  | f :: rest, k => if f.1 == k then some f.2 else lookupField rest k

/-- Assignment to a key of a JSON object: replaces the value in place when
the key is present (keeping dict insertion order), else appends the pair. -/
def setField : List (String × Json) → String → Json → List (String × Json)
  | [], k, v => [(k, v)]
  | f :: rest, k, v => if f.1 == k then (k, v) :: rest else f :: setField rest k v

/-- Python `dict.setdefault(k, dflt)`: the resulting (value, object) pair. -/
def setdefaultField (fields : List (String × Json)) (k : String) (dflt : Json) :
    Json × List (String × Json) :=
  match lookupField fields k with
  | some v => (v, fields)
  | none => (dflt, fields ++ [(k, dflt)])

/-- The manifest-merge step of `build()`:

```
snowpack_config = package_json.setdefault("snowpack", \x7b\x7d)
snowpack_config.setdefault("install", []).extend(aliases)
```

Errors model the `AttributeError` of calling `.setdefault` on a non-dict
value and the failure of `.extend` on a non-list value. -/
def mergeSnowpackInstall (package_json : Json) (aliases : List String) :
    Except BuildErr Json :=
  match package_json with
  | Json.obj fields =>
    let sd := setdefaultField fields "snowpack" (Json.obj [])
    match sd.1 with
    | Json.obj snow_fields =>
      let sdi := setdefaultField snow_fields "install" (Json.arr [])
      match sdi.1 with
      | Json.arr xs =>
        let snow' := Json.obj (setField sdi.2 "install"
          (Json.arr (xs ++ aliases.map Json.str)))
        Except.ok (Json.obj (setField sd.2 "snowpack" snow'))
      | _ => Except.error BuildErr.manifestTypeError
    | _ => Except.error BuildErr.manifestTypeError
  | _ => Except.error BuildErr.manifestTypeError

/-- The top-level field of a manifest under a key, when the manifest is an
object holding that key. -/
def topField (j : Json) (k : String) : Option Json :=
  match j with
  | Json.obj fields => lookupField fields k
  | _ => none

/-- The list held by the manifest's `snowpack.install` sub-section, taking
the `setdefault` defaults for absent keys. -/
def snowpackInstallList (j : Json) : List Json :=
  match topField j "snowpack" with
  | some (Json.obj snow_fields) =>
    match lookupField snow_fields "install" with
    | some (Json.arr xs) => xs
    | _ => []
  | _ => []

/-- A manifest on which the merge step cannot fail: either no `snowpack`
section, or an object `snowpack` section whose `install` key, if present,
holds a list. -/
def manifestWellFormed (j : Json) : Bool :=
  match j with
  | Json.obj fields =>
    match lookupField fields "snowpack" with
    | none => true
    | some (Json.obj snow_fields) =>
      match lookupField snow_fields "install" with
      | none => true
      | some (Json.arr _) => true
      | some _ => false
    | some _ => false
  | _ => false

/-! ## The build and restore pipelines as event traces -/

/-- One observable step of `build()` / `restore()`, in program order. -/
inductive BuildEvent where
  /-- The echo `console.echo(f"\x7be\x7d because \x7be.__cause__\x7d", color="red")` for one
  discovery failure record. -/
  | warnDiscovery (msg : String)
  /-- Normal exit of `config.transaction()`: the staged items are committed
  and persisted. -/
  | commitConfig (items : List BuildConfigItem)
  /-- The copy `shutil.copytree(APP_DIR, temp_app_dir, symlinks=True)`. -/
  | stageTemplate
  /-- The `open_modifiable_json(package_json_path)` block writing back the
  merged staged manifest. -/
  | mergeManifest (merged : Json)
  /-- The step `_npm_install(packages_to_install, temp_app_dir)` running to completion
  with the recorded result. -/
  | npmInstall (packages : List String) (r : SubprocResult)
  /-- The step `_npm_run_build(...)` running to completion with the recorded result. -/
  | npmRunBuild (r : SubprocResult)
  /-- The removal `shutil.rmtree(BUILD_DIR)`. -/
  | removeBuildDir
  /-- The copy `shutil.copytree(temp_build_dir, BUILD_DIR, symlinks=True)`. -/
  | publishBuildDir (tree : List (FsPath × Option String))

/-- The mutable state owned by the module: the configuration store
singleton and the filesystem. -/
structure ClientState where
  cfg : BuildConfig
  fs : FS
deriving DecidableEq

/-- Interpret one event as a state transition: committing the transaction
replaces the store (memory and disk); removing / publishing the output tree
edits the filesystem below `BUILD_DIR`; every other event touches only
temporary directories or the console. -/
def applyEvent (s : ClientState) (e : BuildEvent) : ClientState :=
  match e with
  | BuildEvent.commitConfig items => { s with cfg := ⟨items, items⟩ }
  | BuildEvent.removeBuildDir => { s with fs := fsRemoveTree s.fs BUILD_DIR }
  | BuildEvent.publishBuildDir tree => { s with fs := fsAddTree s.fs BUILD_DIR tree }
  | _ => s

/-- The environment a `build()` call runs against: what discovery returns,
the staged manifest content, the outcome of each external tool invocation,
and the staging build output produced on success. -/
structure BuildEnv where
  /-- Entries collected by `find_python_packages_build_config_items`. -/
  discovered : List BuildConfigItem
  /-- Failure records from discovery, as (error text, cause text). -/
  discoveryErrors : List (String × String)
  /-- Content of `package.json` found in the staged copy of `APP_DIR`. -/
  stagedPackageJson : Json
  /-- Outcome of `npm install ...` in the staging directory. -/
  installResult : SubprocResult
  /-- Outcome of `npm run build` in the staging directory. -/
  npmBuildResult : SubprocResult
  /-- Relative entries of `temp_build_dir` after a successful build. -/
  builtTree : List (FsPath × Option String)

/-- The store items as committed by `build()`'s transaction: the explicit
`config_items` applied first, then the successfully discovered entries. -/
def committedItems (config_items : List BuildConfigItem) (env : BuildEnv)
    (s : ClientState) : List BuildConfigItem :=
  update_config_items (update_config_items s.cfg.items config_items)
    env.discovered

/-- The red warning echoed for each discovery failure record, in order. -/
def buildWarns (env : BuildEnv) : List BuildEvent :=
  env.discoveryErrors.map
    (fun rec => BuildEvent.warnDiscovery (rec.1 ++ " because " ++ rec.2))

/-- The outcome of merging the committed store's aliases into the staged
`package.json`. -/
def buildMergeResult (config_items : List BuildConfigItem) (env : BuildEnv)
    (s : ClientState) : Except BuildErr Json :=
  mergeSnowpackInstall env.stagedPackageJson
    (BuildConfig.all_js_dependency_aliases
      ⟨committedItems config_items env s, committedItems config_items env s⟩)

/-- The events of a `build()` call after the discovery warnings, with the
error the call raises, if any.  Each branch lists, in program order, the
steps completed before the call returns or raises: commit of the
transaction, staging of the template, merge of the manifest, the two tool
invocations (each aborting the call on a non-zero exit), and — only after
both succeed — the removal of an existing `BUILD_DIR` followed by the copy
of the staged build result into its place. -/
def buildCore (config_items : List BuildConfigItem) (env : BuildEnv)
    (s : ClientState) : List BuildEvent × Option BuildErr :=
  let committed := committedItems config_items env s
  match buildMergeResult config_items env s with
  | Except.error e =>
    ([BuildEvent.commitConfig committed, BuildEvent.stageTemplate], some e)
  | Except.ok merged =>
    let packages := BuildConfig.all_aliased_js_dependencies ⟨committed, committed⟩
    match run_subprocess env.installResult with
    | Except.error e =>
      ([BuildEvent.commitConfig committed, BuildEvent.stageTemplate,
        BuildEvent.mergeManifest merged,
        BuildEvent.npmInstall packages env.installResult], some e)
    | Except.ok _ =>
      match run_subprocess env.npmBuildResult with
      | Except.error e =>
        ([BuildEvent.commitConfig committed, BuildEvent.stageTemplate,
          BuildEvent.mergeManifest merged,
          BuildEvent.npmInstall packages env.installResult,
          BuildEvent.npmRunBuild env.npmBuildResult], some e)
      | Except.ok _ =>
        if fsExists s.fs BUILD_DIR then
          ([BuildEvent.commitConfig committed, BuildEvent.stageTemplate,
            BuildEvent.mergeManifest merged,
            BuildEvent.npmInstall packages env.installResult,
            BuildEvent.npmRunBuild env.npmBuildResult,
            BuildEvent.removeBuildDir,
            BuildEvent.publishBuildDir env.builtTree], none)
        else
          ([BuildEvent.commitConfig committed, BuildEvent.stageTemplate,
            BuildEvent.mergeManifest merged,
            BuildEvent.npmInstall packages env.installResult,
            BuildEvent.npmRunBuild env.npmBuildResult,
            BuildEvent.publishBuildDir env.builtTree], none)

/-- The call `build(config_items)`: the full ordered event trace (the discovery
warnings echoed inside the transaction, then the pipeline events) together
with the error the call raises, if any. -/
def buildExec (config_items : List BuildConfigItem) (env : BuildEnv)
    (s : ClientState) : List BuildEvent × Option BuildErr :=
  (buildWarns env ++ (buildCore config_items env s).1,
    (buildCore config_items env s).2)

/-- The event trace of a `build()` call. -/
def buildTrace (config_items : List BuildConfigItem) (env : BuildEnv)
    (s : ClientState) : List BuildEvent :=
  (buildExec config_items env s).1

/-- The error a `build()` call raises, if any. -/
def buildErr (config_items : List BuildConfigItem) (env : BuildEnv)
    (s : ClientState) : Option BuildErr :=
  (buildExec config_items env s).2

/-- The state after a `build()` call: its trace folded over the initial
state. -/
def buildFinal (config_items : List BuildConfigItem) (env : BuildEnv)
    (s : ClientState) : ClientState :=
  (buildTrace config_items env s).foldl applyEvent s

/-- The removal `shutil.rmtree(BUILD_DIR)` with no existence guard: raises
`FileNotFoundError` when the directory does not exist. -/
def rmtreeBuildDir (fs : FS) : Except BuildErr FS :=
  if fsExists fs BUILD_DIR then Except.ok (fsRemoveTree fs BUILD_DIR)
  else Except.error BuildErr.fileNotFound

/-- The environment a `restore()` call runs against. -/
structure RestoreEnv where
  /-- Outcome of `npm install` in `APP_DIR`. -/
  installResult : SubprocResult
  /-- Outcome of `npm run build` in `APP_DIR`. -/
  npmBuildResult : SubprocResult
  /-- Relative entries the successful pristine build writes to `BUILD_DIR`. -/
  restoredTree : List (FsPath × Option String)

/-- The call `restore()`: unconditionally `shutil.rmtree(BUILD_DIR)`, then
`npm install` and `npm run build` against `APP_DIR`, the successful build
recreating `BUILD_DIR`.  Returns the final state and the raised error, if
any. -/
def restoreExec (env : RestoreEnv) (s : ClientState) :
    ClientState × Option BuildErr :=
  match rmtreeBuildDir s.fs with
  | Except.error e => (s, some e)
  | Except.ok fs1 =>
    let s1 := { s with fs := fs1 }
    match run_subprocess env.installResult with
    | Except.error e => (s1, some e)
    | Except.ok _ =>
      match run_subprocess env.npmBuildResult with
      | Except.error e => (s1, some e)
      | Except.ok _ =>
        ({ s1 with fs := fsAddTree fs1 BUILD_DIR env.restoredTree }, none)

/-! ## Event classification and generic trace lemmas -/

/-- Events that edit the live Output Tree. -/
def changesBuildDir : BuildEvent → Bool
  | BuildEvent.removeBuildDir => true
  | BuildEvent.publishBuildDir _ => true
  | _ => false

/-- Events that replace the configuration store. -/
def changesConfig : BuildEvent → Bool
  | BuildEvent.commitConfig _ => true
  | _ => false

/-- A successfully completed install invocation. -/
def successfulInstall : BuildEvent → Bool
  | BuildEvent.npmInstall _ r => r.exitcode == 0
  | _ => false

/-- A successfully completed bundler invocation. -/
def successfulNpmRunBuild : BuildEvent → Bool
  | BuildEvent.npmRunBuild r => r.exitcode == 0
  | _ => false

theorem fs_foldl_of_no_tree_change : ∀ (l : List BuildEvent) (s : ClientState),
    (∀ e ∈ l, changesBuildDir e = false) → ((l.foldl applyEvent s).fs = s.fs)
  | [], _, _ => rfl
  | e :: rest, s, h => by
    have he : changesBuildDir e = false := h e (List.mem_cons_self _ _)
    have h1 : (applyEvent s e).fs = s.fs := by
      cases e <;> first
        | rfl
        | (exfalso; simp [changesBuildDir] at he)
    have h2 := fs_foldl_of_no_tree_change rest (applyEvent s e)
      (fun e' he' => h e' (List.mem_cons_of_mem _ he'))
    simpa [List.foldl_cons, h1] using h2

theorem cfg_foldl_of_no_config_change : ∀ (l : List BuildEvent) (s : ClientState),
    (∀ e ∈ l, changesConfig e = false) → ((l.foldl applyEvent s).cfg = s.cfg)
  | [], _, _ => rfl
  | e :: rest, s, h => by
    have he : changesConfig e = false := h e (List.mem_cons_self _ _)
    have h1 : (applyEvent s e).cfg = s.cfg := by
      cases e <;> first
        | rfl
        | (exfalso; simp [changesConfig] at he)
    have h2 := cfg_foldl_of_no_config_change rest (applyEvent s e)
      (fun e' he' => h e' (List.mem_cons_of_mem _ he'))
    simpa [List.foldl_cons, h1] using h2

theorem foldl_warns (msgs : List (String × String)) (s : ClientState) :
    ((msgs.map (fun rec => BuildEvent.warnDiscovery (rec.1 ++ " because " ++ rec.2))).foldl
      applyEvent s) = s := by
  induction msgs generalizing s with
  | nil => rfl
  | cons m rest ih => simpa [applyEvent] using ih s

/-- Two stores agreeing on the alias of one pair give the same URL result
over the same filesystem. -/
theorem web_module_url_congr (cfg1 cfg2 : BuildConfig) (fs1 fs2 : FS)
    (source_name package_name : String)
    (ha : cfg1.get_js_dependency_alias source_name package_name
      = cfg2.get_js_dependency_alias source_name package_name)
    (hfs : fs1 = fs2) :
    web_module_url cfg1 fs1 source_name package_name
      = web_module_url cfg2 fs2 source_name package_name := by
  subst hfs
  unfold web_module_url
  rw [ha]

/-- A well-formed staged manifest always merges successfully. -/
theorem mergeSnowpackInstall_ok_of_wellFormed (j : Json) (aliases : List String)
    (h : manifestWellFormed j = true) :
    ∃ merged, mergeSnowpackInstall j aliases = Except.ok merged := by
  cases j with
  | obj fields =>
    cases hs : lookupField fields "snowpack" with
    | none =>
      simp only [mergeSnowpackInstall, setdefaultField, hs, lookupField]
      exact ⟨_, rfl⟩
    | some sv =>
      cases sv with
      | obj snow_fields =>
        cases hi : lookupField snow_fields "install" with
        | none =>
          simp only [mergeSnowpackInstall, setdefaultField, hs, hi]
          exact ⟨_, rfl⟩
        | some iv =>
          cases iv with
          | arr xs =>
            simp only [mergeSnowpackInstall, setdefaultField, hs, hi]
            exact ⟨_, rfl⟩
          | null => simp [manifestWellFormed, hs, hi] at h
          | bool b => simp [manifestWellFormed, hs, hi] at h
          | num n => simp [manifestWellFormed, hs, hi] at h
          | str s => simp [manifestWellFormed, hs, hi] at h
          | obj f2 => simp [manifestWellFormed, hs, hi] at h
      | null => simp [manifestWellFormed, hs] at h
      | bool b => simp [manifestWellFormed, hs] at h
      | num n => simp [manifestWellFormed, hs] at h
      | str s => simp [manifestWellFormed, hs] at h
      | arr xs => simp [manifestWellFormed, hs] at h
  | null => simp [manifestWellFormed] at h
  | bool b => simp [manifestWellFormed] at h
  | num n => simp [manifestWellFormed] at h
  | str s => simp [manifestWellFormed] at h
  | arr xs => simp [manifestWellFormed] at h

/-! ## Claim C5 -/

/-- C5: every external tool invocation of `build()` and `restore()` goes
through `_run_subprocess`; a non-zero exit code raises the wrapped build
error carrying the tool's stderr text verbatim as its message, and a zero
exit code raises nothing. -/
theorem run_subprocess_contract (r : SubprocResult) :
    (r.exitcode ≠ 0 →
      run_subprocess r = Except.error (BuildErr.subprocessError r.err)) ∧
    (r.exitcode = 0 → run_subprocess r = Except.ok ()) := by
  constructor <;> intro h <;> simp [run_subprocess, h]

theorem run_subprocess_contract_witness :
    run_subprocess ⟨2, "", "oops"⟩ = Except.error (BuildErr.subprocessError "oops") ∧
    run_subprocess ⟨0, "done", ""⟩ = Except.ok () :=
  ⟨(run_subprocess_contract ⟨2, "", "oops"⟩).1 (by decide),
   (run_subprocess_contract ⟨0, "done", ""⟩).2 rfl⟩

/-! ## Claim C3 -/

/-- C3: `find_client_build_path` rejects an absolute input (one starting
with a slash) with the invalid-path error; for a relative input it never
raises, returning the input's segments joined beneath the Output Tree root
when that path exists and `none` otherwise. -/
theorem find_client_build_path_contract (fs : FS) (rel_path : String) :
    (startsWithSlash rel_path = true →
      find_client_build_path fs rel_path = Except.error PathError.invalidPath) ∧
    (startsWithSlash rel_path = false →
      find_client_build_path fs rel_path
        = Except.ok (if fsExists fs (joinpath BUILD_DIR (splitSlash rel_path))
            then some (joinpath BUILD_DIR (splitSlash rel_path)) else none)) := by
  constructor <;> intro h
  · simp [find_client_build_path, h]
  · cases hex : fsExists fs (joinpath BUILD_DIR (splitSlash rel_path)) <;>
      simp [find_client_build_path, h, hex]

theorem find_client_build_path_contract_witness :
    find_client_build_path ⟨[]⟩ "/etc/passwd" = Except.error PathError.invalidPath ∧
    find_client_build_path ⟨[]⟩ "missing/file.js" = Except.ok none :=
  ⟨(find_client_build_path_contract ⟨[]⟩ "/etc/passwd").1 rfl,
   ((find_client_build_path_contract ⟨[]⟩ "missing/file.js").2 rfl).trans rfl⟩

/-! ## Claim C10 -/

/-- A filesystem holding one file beside the Output Tree: the whole
directory chain down to `BUILD_DIR` exists (so the OS walk of
`BUILD_DIR/../outside.js` passes through an existing `build` directory and
resolves the `".."` step), an empty `BUILD_DIR`, and the file
`APP_DIR/outside.js` outside it. -/
def escapeFS : FS :=
  ⟨[(["idom"], none), (["idom", "client"], none), (APP_DIR, none),
    (BUILD_DIR, none), (APP_DIR ++ ["outside.js"], some "content")]⟩

/-- C10: `find_client_build_path` raises exactly on inputs that start with
`"/"`; and over a state where the Output Tree directory itself exists, the
relative input `"../outside.js"` names an existing path — resolving to
`APP_DIR/outside.js`, outside the Output Tree root — which is returned
rather than rejected. -/
theorem find_client_build_path_slash_only_and_escape :
    (∀ (fs : FS) (rel_path : String),
      (∃ e, find_client_build_path fs rel_path = Except.error e) ↔
        startsWithSlash rel_path = true) ∧
    (fsExists escapeFS BUILD_DIR = true ∧
      find_client_build_path escapeFS "../outside.js"
        = Except.ok (some (BUILD_DIR ++ ["..", "outside.js"])) ∧
      normPath (BUILD_DIR ++ ["..", "outside.js"]) = APP_DIR ++ ["outside.js"] ∧
      segsUnder BUILD_DIR (normPath (BUILD_DIR ++ ["..", "outside.js"])) = false) := by
  refine ⟨fun fs rel_path => ⟨fun he => ?_, fun h => ⟨PathError.invalidPath, ?_⟩⟩,
    rfl, rfl, rfl, rfl⟩
  · by_contra hne
    rcases he with ⟨e, he⟩
    rw [Bool.not_eq_true] at hne
    cases hex : fsExists fs (joinpath BUILD_DIR (splitSlash rel_path)) <;>
      simp [find_client_build_path, hne, hex] at he
  · simp [find_client_build_path, h]

theorem find_client_build_path_slash_only_witness :
    ∃ e, find_client_build_path escapeFS "/etc/passwd" = Except.error e :=
  (find_client_build_path_slash_only_and_escape.1 escapeFS "/etc/passwd").mpr rfl

/-! ## Claim C4 -/

/-- C4: when no alias is registered for `(contributor, package_name)`, or
the aliased module file is absent from the Output Tree,
`web_module_exports` returns the empty list and `web_module_url` returns
`none`; neither raises. -/
theorem web_module_absent_contract (exportsOf : String → List String)
    (cfg : BuildConfig) (fs : FS) (source_name package_name : String)
    (h : ∀ a, cfg.get_js_dependency_alias source_name package_name = some a →
      find_client_build_path fs ("web_modules/" ++ a ++ ".js") = Except.ok none) :
    web_module_exports exportsOf cfg fs source_name package_name = Except.ok [] ∧
    web_module_url cfg fs source_name package_name = Except.ok none := by
  cases ha : cfg.get_js_dependency_alias source_name package_name with
  | none => exact ⟨by simp [web_module_exports, ha], by simp [web_module_url, ha]⟩
  | some a =>
    have hf := h a ha
    exact ⟨by simp [web_module_exports, ha, hf], by simp [web_module_url, ha, hf]⟩

/-- The store used in the C4 witness: one registered alias and no built
module files at all. -/
def c4cfg : BuildConfig :=
  ⟨[⟨"demo", "react", "demo_react", []⟩], [⟨"demo", "react", "demo_react", []⟩]⟩

theorem web_module_absent_contract_witness :
    web_module_exports (fun _ => []) c4cfg ⟨[]⟩ "demo" "react" = Except.ok [] ∧
    web_module_url c4cfg ⟨[]⟩ "demo" "react" = Except.ok none :=
  web_module_absent_contract (fun _ => []) c4cfg ⟨[]⟩ "demo" "react"
    (fun a ha => by
      have : a = "demo_react" := by
        simpa [c4cfg, BuildConfig.get_js_dependency_alias] using ha.symm
      subst this
      rfl)

/-! ## Field-list lemmas and claim C7 -/

theorem lookupField_setField_self (fields : List (String × Json)) (k : String) (v : Json) :
    lookupField (setField fields k v) k = some v := by
  induction fields with
  | nil => simp [setField, lookupField]
  | cons f rest ih =>
    by_cases h : f.1 = k
    · simp [setField, lookupField, h]
    · simp [setField, lookupField, h, ih]

theorem lookupField_setField_ne (fields : List (String × Json)) (k k' : String)
    (v : Json) (h : k' ≠ k) :
    lookupField (setField fields k v) k' = lookupField fields k' := by
  induction fields with
  | nil => simp [setField, lookupField, Ne.symm h]
  | cons f rest ih =>
    by_cases hf : f.1 = k
    · subst hf
      simp [setField, lookupField, Ne.symm h, fun hh : f.1 = k' => h hh.symm]
    · by_cases hf' : f.1 = k'
      · simp [setField, lookupField, hf, hf', h]
      · simp [setField, lookupField, hf, hf', ih]

theorem lookupField_append_single_ne (fields : List (String × Json))
    (k0 k : String) (v0 : Json) (h : k ≠ k0) :
    lookupField (fields ++ [(k0, v0)]) k = lookupField fields k := by
  induction fields with
  | nil => simp [lookupField, Ne.symm h]
  | cons f rest ih => by_cases hf : f.1 = k <;> simp [lookupField, hf, ih]

/-- C7: a merge of aliases into the staged manifest that completes is
additive — the resulting `snowpack.install` list is exactly the previous
list with the aliases appended, every other top-level section of the
manifest is unchanged, and every other sub-key of the `snowpack` section is
unchanged. -/
theorem mergeSnowpackInstall_additive (package_json : Json) (aliases : List String)
    (merged : Json)
    (h : mergeSnowpackInstall package_json aliases = Except.ok merged) :
    snowpackInstallList merged
      = snowpackInstallList package_json ++ aliases.map Json.str ∧
    (∀ k, k ≠ "snowpack" → topField merged k = topField package_json k) ∧
    (∀ k, k ≠ "install" →
      (topField merged "snowpack").bind (fun sj => topField sj k)
        = (topField package_json "snowpack").bind (fun sj => topField sj k)) := by
  cases package_json with
  | obj fields =>
    cases hs : lookupField fields "snowpack" with
    | none =>
      simp only [mergeSnowpackInstall, setdefaultField, hs, lookupField,
        Except.ok.injEq] at h
      subst h
      refine ⟨?_, fun k hk => ?_, fun k hk => ?_⟩
      · simp [snowpackInstallList, topField, lookupField_setField_self, hs,
          setField, lookupField]
      · simp [topField, lookupField_setField_ne _ _ _ _ hk,
          lookupField_append_single_ne _ _ _ _ hk]
      · simp [topField, lookupField_setField_self, hs, setField, lookupField,
          Ne.symm hk]
    | some sv =>
      cases sv with
      | obj snow_fields =>
        cases hi : lookupField snow_fields "install" with
        | none =>
          simp only [mergeSnowpackInstall, setdefaultField, hs, hi,
            Except.ok.injEq] at h
          subst h
          refine ⟨?_, fun k hk => ?_, fun k hk => ?_⟩
          · simp [snowpackInstallList, topField, lookupField_setField_self, hs,
              hi, lookupField_append_single_ne]
          · simp [topField, lookupField_setField_ne _ _ _ _ hk]
          · simp [topField, lookupField_setField_self, hs,
              lookupField_setField_ne _ _ _ _ hk,
              lookupField_append_single_ne _ _ _ _ hk]
        | some iv =>
          cases iv with
          | arr xs =>
            simp only [mergeSnowpackInstall, setdefaultField, hs, hi,
              Except.ok.injEq] at h
            subst h
            refine ⟨?_, fun k hk => ?_, fun k hk => ?_⟩
            · simp [snowpackInstallList, topField, lookupField_setField_self,
                hs, hi]
            · simp [topField, lookupField_setField_ne _ _ _ _ hk]
            · simp [topField, lookupField_setField_self, hs,
                lookupField_setField_ne _ _ _ _ hk]
          | null => simp [mergeSnowpackInstall, setdefaultField, hs, hi] at h
          | bool b => simp [mergeSnowpackInstall, setdefaultField, hs, hi] at h
          | num n => simp [mergeSnowpackInstall, setdefaultField, hs, hi] at h
          | str s => simp [mergeSnowpackInstall, setdefaultField, hs, hi] at h
          | obj f2 => simp [mergeSnowpackInstall, setdefaultField, hs, hi] at h
      | null => simp [mergeSnowpackInstall, setdefaultField, hs] at h
      | bool b => simp [mergeSnowpackInstall, setdefaultField, hs] at h
      | num n => simp [mergeSnowpackInstall, setdefaultField, hs] at h
      | str s => simp [mergeSnowpackInstall, setdefaultField, hs] at h
      | arr xs => simp [mergeSnowpackInstall, setdefaultField, hs] at h
  | null => simp [mergeSnowpackInstall] at h
  | bool b => simp [mergeSnowpackInstall] at h
  | num n => simp [mergeSnowpackInstall] at h
  | str s => simp [mergeSnowpackInstall] at h
  | arr xs => simp [mergeSnowpackInstall] at h

/-- The staged manifest used in the C7 witness. -/
def c7pkg : Json :=
  Json.obj [("name", Json.str "app"),
    ("snowpack", Json.obj [("install", Json.arr [Json.str "old"]),
      ("mount", Json.num 1)])]

/-- The merged manifest the C7 witness expects. -/
def c7merged : Json :=
  Json.obj [("name", Json.str "app"),
    ("snowpack", Json.obj [("install",
        Json.arr [Json.str "old", Json.str "a", Json.str "b"]),
      ("mount", Json.num 1)])]

theorem mergeSnowpackInstall_additive_witness :
    snowpackInstallList c7merged
      = snowpackInstallList c7pkg ++ ["a", "b"].map Json.str ∧
    topField c7merged "name" = topField c7pkg "name" :=
  ⟨(mergeSnowpackInstall_additive c7pkg ["a", "b"] c7merged rfl).1,
   (mergeSnowpackInstall_additive c7pkg ["a", "b"] c7merged rfl).2.1 "name"
     (by decide)⟩

/-! ## Claim C8 -/

/-- C8: a transaction whose body raises returns the store exactly as it
was — the in-memory items keep none of the staged update and the persisted
state is not rewritten — while the body's error propagates. -/
theorem transaction_rollback_on_error {E : Type} (cfg : BuildConfig)
    (body : List BuildConfigItem → Except E (List BuildConfigItem)) (e : E)
    (h : body cfg.items = Except.error e) :
    BuildConfig.transaction cfg body = (cfg, some e) := by
  simp [BuildConfig.transaction, h]

theorem transaction_rollback_on_error_witness :
    BuildConfig.transaction (E := Unit) ⟨[⟨"a", "b", "c", []⟩], []⟩
      (fun _ => Except.error ()) = (⟨[⟨"a", "b", "c", []⟩], []⟩, some ()) :=
  transaction_rollback_on_error ⟨[⟨"a", "b", "c", []⟩], []⟩ (fun _ => Except.error ()) () rfl

/-! ## Case analysis of the build pipeline -/

/-- Enumeration of the five ways a `build()` call can run, with the exact
pipeline events and outcome of each. -/
theorem buildCore_cases (config_items : List BuildConfigItem) (env : BuildEnv)
    (s : ClientState) :
    (∃ e, buildMergeResult config_items env s = Except.error e ∧
      buildCore config_items env s
        = ([BuildEvent.commitConfig (committedItems config_items env s),
            BuildEvent.stageTemplate], some e)) ∨
    (∃ merged, buildMergeResult config_items env s = Except.ok merged ∧
      env.installResult.exitcode ≠ 0 ∧
      buildCore config_items env s
        = ([BuildEvent.commitConfig (committedItems config_items env s),
            BuildEvent.stageTemplate, BuildEvent.mergeManifest merged,
            BuildEvent.npmInstall
              (BuildConfig.all_aliased_js_dependencies
                ⟨committedItems config_items env s,
                  committedItems config_items env s⟩) env.installResult],
           some (BuildErr.subprocessError env.installResult.err))) ∨
    (∃ merged, buildMergeResult config_items env s = Except.ok merged ∧
      env.installResult.exitcode = 0 ∧ env.npmBuildResult.exitcode ≠ 0 ∧
      buildCore config_items env s
        = ([BuildEvent.commitConfig (committedItems config_items env s),
            BuildEvent.stageTemplate, BuildEvent.mergeManifest merged,
            BuildEvent.npmInstall
              (BuildConfig.all_aliased_js_dependencies
                ⟨committedItems config_items env s,
                  committedItems config_items env s⟩) env.installResult,
            BuildEvent.npmRunBuild env.npmBuildResult],
           some (BuildErr.subprocessError env.npmBuildResult.err))) ∨
    (∃ merged, buildMergeResult config_items env s = Except.ok merged ∧
      env.installResult.exitcode = 0 ∧ env.npmBuildResult.exitcode = 0 ∧
      fsExists s.fs BUILD_DIR = true ∧
      buildCore config_items env s
        = ([BuildEvent.commitConfig (committedItems config_items env s),
            BuildEvent.stageTemplate, BuildEvent.mergeManifest merged,
            BuildEvent.npmInstall
              (BuildConfig.all_aliased_js_dependencies
                ⟨committedItems config_items env s,
                  committedItems config_items env s⟩) env.installResult,
            BuildEvent.npmRunBuild env.npmBuildResult,
            BuildEvent.removeBuildDir,
            BuildEvent.publishBuildDir env.builtTree], none)) ∨
    (∃ merged, buildMergeResult config_items env s = Except.ok merged ∧
      env.installResult.exitcode = 0 ∧ env.npmBuildResult.exitcode = 0 ∧
      fsExists s.fs BUILD_DIR = false ∧
      buildCore config_items env s
        = ([BuildEvent.commitConfig (committedItems config_items env s),
            BuildEvent.stageTemplate, BuildEvent.mergeManifest merged,
            BuildEvent.npmInstall
              (BuildConfig.all_aliased_js_dependencies
                ⟨committedItems config_items env s,
                  committedItems config_items env s⟩) env.installResult,
            BuildEvent.npmRunBuild env.npmBuildResult,
            BuildEvent.publishBuildDir env.builtTree], none)) := by
  cases hm : buildMergeResult config_items env s with
  | error e =>
    exact Or.inl ⟨e, rfl, by simp [buildCore, hm]⟩
  | ok merged =>
    by_cases hi : env.installResult.exitcode = 0
    · by_cases hb : env.npmBuildResult.exitcode = 0
      · cases hex : fsExists s.fs BUILD_DIR with
        | true =>
          refine Or.inr (Or.inr (Or.inr (Or.inl ⟨merged, rfl, hi, hb, rfl, ?_⟩)))
          simp [buildCore, hm, run_subprocess, hi, hb, hex]
        | false =>
          refine Or.inr (Or.inr (Or.inr (Or.inr ⟨merged, rfl, hi, hb, rfl, ?_⟩)))
          simp [buildCore, hm, run_subprocess, hi, hb, hex]
      · refine Or.inr (Or.inr (Or.inl ⟨merged, rfl, hi, hb, ?_⟩))
        simp [buildCore, hm, run_subprocess, hi, hb]
    · refine Or.inr (Or.inl ⟨merged, rfl, hi, ?_⟩)
      simp [buildCore, hm, run_subprocess, hi]

/-- Discovery warnings change neither the store nor the tree. -/
theorem mem_buildWarns_inert (env : BuildEnv) (e : BuildEvent)
    (h : e ∈ buildWarns env) :
    changesBuildDir e = false ∧ changesConfig e = false := by
  simp only [buildWarns, List.mem_map] at h
  obtain ⟨rec, _, rfl⟩ := h
  exact ⟨rfl, rfl⟩

/-- A failing install or bundler step makes `build()` raise. -/
theorem buildErr_ne_none_of_tool_failure (config_items : List BuildConfigItem)
    (env : BuildEnv) (s : ClientState)
    (hfail : env.installResult.exitcode ≠ 0 ∨ env.npmBuildResult.exitcode ≠ 0) :
    buildErr config_items env s ≠ none := by
  rcases buildCore_cases config_items env s with
    ⟨e, _, hc⟩ | ⟨j, _, hi, hc⟩ | ⟨j, _, hi, hb, hc⟩ |
    ⟨j, _, hi, hb, hex, hc⟩ | ⟨j, _, hi, hb, hex, hc⟩
  · simp [buildErr, buildExec, hc]
  · simp [buildErr, buildExec, hc]
  · simp [buildErr, buildExec, hc]
  · rcases hfail with hf | hf
    · exact absurd hi hf
    · exact absurd hb hf
  · rcases hfail with hf | hf
    · exact absurd hi hf
    · exact absurd hb hf

/-- A `build()` call that raises leaves the filesystem — in particular the
Output Tree — exactly as it was. -/
theorem buildFinal_fs_of_raise (config_items : List BuildConfigItem)
    (env : BuildEnv) (s : ClientState)
    (h : buildErr config_items env s ≠ none) :
    (buildFinal config_items env s).fs = s.fs := by
  have hw : (buildWarns env).foldl applyEvent s = s :=
    foldl_warns env.discoveryErrors s
  rcases buildCore_cases config_items env s with
    ⟨e, _, hc⟩ | ⟨j, _, hi, hc⟩ | ⟨j, _, hi, hb, hc⟩ |
    ⟨j, _, hi, hb, hex, hc⟩ | ⟨j, _, hi, hb, hex, hc⟩
  · simp [buildFinal, buildTrace, buildExec, hc, List.foldl_append, hw, applyEvent]
  · simp [buildFinal, buildTrace, buildExec, hc, List.foldl_append, hw, applyEvent]
  · simp [buildFinal, buildTrace, buildExec, hc, List.foldl_append, hw, applyEvent]
  · exact absurd (by simp [buildErr, buildExec, hc]) h
  · exact absurd (by simp [buildErr, buildExec, hc]) h

/-! ## Claim C2 -/

/-- C2: the existing Output Tree is deleted only after both tool steps have
completed successfully; when the deletion happens it is immediately
followed by the copy of the staged build result as the final event, with
nothing before that pair changing the tree; the publication likewise
happens only after both steps succeed; and any initial run of events free
of deletion/publication leaves the tree untouched. -/
theorem build_single_swap_point (config_items : List BuildConfigItem)
    (env : BuildEnv) (s : ClientState) :
    (BuildEvent.removeBuildDir ∈ buildTrace config_items env s →
      env.installResult.exitcode = 0 ∧ env.npmBuildResult.exitcode = 0 ∧
      ∃ pre, buildTrace config_items env s
          = pre ++ [BuildEvent.removeBuildDir,
              BuildEvent.publishBuildDir env.builtTree] ∧
        ∀ e ∈ pre, changesBuildDir e = false) ∧
    (∀ tree, BuildEvent.publishBuildDir tree ∈ buildTrace config_items env s →
      env.installResult.exitcode = 0 ∧ env.npmBuildResult.exitcode = 0) ∧
    (∀ p q, buildTrace config_items env s = p ++ q →
      (∀ e ∈ p, changesBuildDir e = false) →
      ((p.foldl applyEvent s).fs = s.fs)) := by
  refine ⟨?_, ?_, fun p q _ hp => fs_foldl_of_no_tree_change p s hp⟩
  · intro hmem
    rcases buildCore_cases config_items env s with
      ⟨e, _, hc⟩ | ⟨j, _, hi, hc⟩ | ⟨j, _, hi, hb, hc⟩ |
      ⟨j, _, hi, hb, hex, hc⟩ | ⟨j, _, hi, hb, hex, hc⟩
    · simp only [buildTrace, buildExec, hc] at hmem
      simp [buildWarns] at hmem
    · simp only [buildTrace, buildExec, hc] at hmem
      simp [buildWarns] at hmem
    · simp only [buildTrace, buildExec, hc] at hmem
      simp [buildWarns] at hmem
    · refine ⟨hi, hb,
        buildWarns env ++
          [BuildEvent.commitConfig (committedItems config_items env s),
            BuildEvent.stageTemplate, BuildEvent.mergeManifest j,
            BuildEvent.npmInstall
              (BuildConfig.all_aliased_js_dependencies
                ⟨committedItems config_items env s,
                  committedItems config_items env s⟩) env.installResult,
            BuildEvent.npmRunBuild env.npmBuildResult], ?_, ?_⟩
      · simp only [buildTrace, buildExec, hc]
        simp [List.append_assoc]
      · intro ev hev
        rcases List.mem_append.mp hev with hwv | hl
        · exact (mem_buildWarns_inert env ev hwv).1
        · simp only [List.mem_cons, List.not_mem_nil, or_false] at hl
          rcases hl with rfl | rfl | rfl | rfl | rfl <;> rfl
    · simp only [buildTrace, buildExec, hc] at hmem
      simp [buildWarns] at hmem
  · intro tree hmem
    rcases buildCore_cases config_items env s with
      ⟨e, _, hc⟩ | ⟨j, _, hi, hc⟩ | ⟨j, _, hi, hb, hc⟩ |
      ⟨j, _, hi, hb, hex, hc⟩ | ⟨j, _, hi, hb, hex, hc⟩
    · simp only [buildTrace, buildExec, hc] at hmem
      simp [buildWarns] at hmem
    · simp only [buildTrace, buildExec, hc] at hmem
      simp [buildWarns] at hmem
    · simp only [buildTrace, buildExec, hc] at hmem
      simp [buildWarns] at hmem
    · exact ⟨hi, hb⟩
    · exact ⟨hi, hb⟩

/-- The merged staged manifest of the C2 witness. -/
def c2merged : Json :=
  Json.obj [("snowpack", Json.obj [("install", Json.arr [])])]

/-- Initial state of the C2 witness: an empty store and an existing (empty)
Output Tree. -/
def c2state : ClientState := ⟨⟨[], []⟩, ⟨[(BUILD_DIR, none)]⟩⟩

/-- Environment of the C2 witness: nothing discovered, empty staged
manifest, both tools succeed. -/
def c2env : BuildEnv :=
  ⟨[], [], Json.obj [], ⟨0, "", ""⟩, ⟨0, "", ""⟩, [(["index.js"], some "bundle")]⟩

theorem build_single_swap_point_witness :
    ([BuildEvent.commitConfig [], BuildEvent.stageTemplate,
        BuildEvent.mergeManifest c2merged,
        BuildEvent.npmInstall [] ⟨0, "", ""⟩,
        BuildEvent.npmRunBuild ⟨0, "", ""⟩].foldl applyEvent c2state).fs
      = c2state.fs :=
  (build_single_swap_point [] c2env c2state).2.2
    [BuildEvent.commitConfig [], BuildEvent.stageTemplate,
      BuildEvent.mergeManifest c2merged,
      BuildEvent.npmInstall [] ⟨0, "", ""⟩,
      BuildEvent.npmRunBuild ⟨0, "", ""⟩]
    [BuildEvent.removeBuildDir, BuildEvent.publishBuildDir c2env.builtTree]
    rfl (by decide)

/-! ## Claim C6 -/

/-- C6: discovery failure records never abort `build()`: each record is
echoed as one warning event in the trace, the call's raised error and final
state are identical to those of the same call with no failure records, and
the committed store applies the explicit and the successfully discovered
entries regardless. -/
theorem build_discovery_errors_nonfatal (config_items : List BuildConfigItem)
    (env : BuildEnv) (s : ClientState) :
    (∀ rec ∈ env.discoveryErrors,
      BuildEvent.warnDiscovery (rec.1 ++ " because " ++ rec.2)
        ∈ buildTrace config_items env s) ∧
    buildErr config_items env s
      = buildErr config_items { env with discoveryErrors := [] } s ∧
    buildFinal config_items env s
      = buildFinal config_items { env with discoveryErrors := [] } s ∧
    (buildFinal config_items env s).cfg
      = ⟨committedItems config_items env s,
          committedItems config_items env s⟩ := by
  have hw : (buildWarns env).foldl applyEvent s = s :=
    foldl_warns env.discoveryErrors s
  refine ⟨?_, rfl, ?_, ?_⟩
  · intro rec hrec
    exact List.mem_append.mpr (Or.inl (List.mem_map.mpr ⟨rec, hrec, rfl⟩))
  · calc buildFinal config_items env s
        = ((buildCore config_items env s).1).foldl applyEvent s := by
          simp [buildFinal, buildTrace, buildExec, List.foldl_append, hw]
      _ = buildFinal config_items { env with discoveryErrors := [] } s := rfl
  · rcases buildCore_cases config_items env s with
      ⟨e, _, hc⟩ | ⟨j, _, hi, hc⟩ | ⟨j, _, hi, hb, hc⟩ |
      ⟨j, _, hi, hb, hex, hc⟩ | ⟨j, _, hi, hb, hex, hc⟩ <;>
    simp [buildFinal, buildTrace, buildExec, hc, List.foldl_append, hw,
      applyEvent]

/-- Environment of the C6 witness: one discovery failure record and
otherwise successful steps. -/
def c6env : BuildEnv :=
  ⟨[], [("ContributorHookError", "boom")], Json.obj [], ⟨0, "", ""⟩,
    ⟨0, "", ""⟩, []⟩

/-- Initial state of the C6 witness. -/
def c6state : ClientState := ⟨⟨[], []⟩, ⟨[]⟩⟩

theorem build_discovery_errors_nonfatal_witness :
    BuildEvent.warnDiscovery "ContributorHookError because boom"
      ∈ buildTrace [] c6env c6state :=
  (build_discovery_errors_nonfatal [] c6env c6state).1
    ("ContributorHookError", "boom") (by simp [c6env])

/-! ## Claim C1 -/

/-- Initial state for the C1 counterexample: an empty store, and an Output
Tree already holding a module file named `web_modules/a.js`. -/
def c1state : ClientState :=
  ⟨⟨[], []⟩, ⟨[(BUILD_DIR, none), (BUILD_DIR ++ ["web_modules"], none),
     (BUILD_DIR ++ ["web_modules", "a.js"], some "export const x = 1;")]⟩⟩

/-- The explicit entry passed to `build()` in the C1 counterexample: it
registers alias `a` for the pair `(c, p)`. -/
def c1items : List BuildConfigItem := [⟨"c", "p", "a", []⟩]

/-- Environment for the C1 counterexample: discovery finds nothing, the
staged manifest is empty, and the install step fails. -/
def c1env : BuildEnv :=
  ⟨[], [], Json.obj [], ⟨1, "", "boom"⟩, ⟨0, "", ""⟩, []⟩

/-- C1 as stated is refuted: the install step fails and the Output Tree is
untouched, yet `web_module_url` changes from `none` to a URL — the
transaction committed the new alias before the failure, and a module file
bearing that alias's name already existed in the tree. -/
theorem build_failed_install_changes_web_module_url :
    buildErr c1items c1env c1state = some (BuildErr.subprocessError "boom") ∧
    (buildFinal c1items c1env c1state).fs = c1state.fs ∧
    web_module_url c1state.cfg c1state.fs "c" "p" = Except.ok none ∧
    web_module_url (buildFinal c1items c1env c1state).cfg
        (buildFinal c1items c1env c1state).fs "c" "p"
      = Except.ok (some "../web_modules/a.js") ∧
    web_module_url (buildFinal c1items c1env c1state).cfg
        (buildFinal c1items c1env c1state).fs "c" "p"
      ≠ web_module_url c1state.cfg c1state.fs "c" "p" := by
  refine ⟨rfl, rfl, rfl, rfl, ?_⟩
  intro hcontra
  rw [show web_module_url (buildFinal c1items c1env c1state).cfg
        (buildFinal c1items c1env c1state).fs "c" "p"
      = Except.ok (some "../web_modules/a.js") from rfl,
    show web_module_url c1state.cfg c1state.fs "c" "p" = Except.ok none
      from rfl] at hcontra
  simp at hcontra

/-- C1 (amended): when the install or the bundler step fails, `build()`
leaves the filesystem — hence the Output Tree — byte-identical to before
the call, and `web_module_url` is unchanged for every pair whose registered
alias the call's committed configuration update did not change. -/
theorem build_tool_failure_atomicity (config_items : List BuildConfigItem)
    (env : BuildEnv) (s : ClientState)
    (hfail : env.installResult.exitcode ≠ 0 ∨ env.npmBuildResult.exitcode ≠ 0) :
    (buildFinal config_items env s).fs = s.fs ∧
    ∀ source_name package_name,
      (buildFinal config_items env s).cfg.get_js_dependency_alias
          source_name package_name
        = s.cfg.get_js_dependency_alias source_name package_name →
      web_module_url (buildFinal config_items env s).cfg
          (buildFinal config_items env s).fs source_name package_name
        = web_module_url s.cfg s.fs source_name package_name := by
  have hfs := buildFinal_fs_of_raise config_items env s
    (buildErr_ne_none_of_tool_failure config_items env s hfail)
  exact ⟨hfs, fun sn pn ha => web_module_url_congr _ _ _ _ _ _ ha hfs⟩

/-- Environment for the C1 witness: the bundler step fails. -/
def c1wenv : BuildEnv :=
  ⟨[], [], Json.obj [], ⟨0, "", ""⟩, ⟨1, "", "crash"⟩, []⟩

/-- Initial state for the C1 witness. -/
def c1wstate : ClientState := ⟨⟨[], []⟩, ⟨[(BUILD_DIR, none)]⟩⟩

theorem build_tool_failure_atomicity_witness :
    (buildFinal [] c1wenv c1wstate).fs = c1wstate.fs ∧
    web_module_url (buildFinal [] c1wenv c1wstate).cfg
        (buildFinal [] c1wenv c1wstate).fs "x" "y"
      = web_module_url c1wstate.cfg c1wstate.fs "x" "y" :=
  ⟨(build_tool_failure_atomicity [] c1wenv c1wstate (Or.inr (by decide))).1,
   (build_tool_failure_atomicity [] c1wenv c1wstate (Or.inr (by decide))).2
     "x" "y" rfl⟩

/-! ## Claim C9 -/

/-- C9: `restore()` removes the Output Tree with no existence guard, so
with no tree present it raises file-not-found and changes nothing, while
`build()` — whose removal is guarded — raises no error from any initial
state, with or without an existing tree, whenever the staged manifest is
well formed and both external tools exit zero. -/
theorem restore_unguarded_build_guarded (renv : RestoreEnv)
    (config_items : List BuildConfigItem) (env : BuildEnv) (s : ClientState)
    (hno : fsExists s.fs BUILD_DIR = false)
    (hwf : manifestWellFormed env.stagedPackageJson = true)
    (hi : env.installResult.exitcode = 0)
    (hb : env.npmBuildResult.exitcode = 0) :
    restoreExec renv s = (s, some BuildErr.fileNotFound) ∧
    ∀ s2 : ClientState, buildErr config_items env s2 = none := by
  refine ⟨by simp [restoreExec, rmtreeBuildDir, hno], fun s2 => ?_⟩
  obtain ⟨merged, hm⟩ := mergeSnowpackInstall_ok_of_wellFormed
    env.stagedPackageJson
    (BuildConfig.all_js_dependency_aliases
      ⟨committedItems config_items env s2, committedItems config_items env s2⟩)
    hwf
  have hm' : buildMergeResult config_items env s2 = Except.ok merged := hm
  cases hex : fsExists s2.fs BUILD_DIR <;>
    simp [buildErr, buildExec, buildCore, hm', run_subprocess, hi, hb, hex]

/-- Restore environment of the C9 witness: both tools would succeed. -/
def c9renv : RestoreEnv := ⟨⟨0, "", ""⟩, ⟨0, "", ""⟩, []⟩

/-- Build environment of the C9 witness: empty staged manifest, both tools
succeed. -/
def c9env : BuildEnv :=
  ⟨[], [], Json.obj [], ⟨0, "", ""⟩, ⟨0, "", ""⟩, [(["index.js"], some "x")]⟩

/-- Initial state of the C9 witness: no Output Tree at all. -/
def c9state : ClientState := ⟨⟨[], []⟩, ⟨[]⟩⟩

theorem restore_unguarded_build_guarded_witness :
    restoreExec c9renv c9state = (c9state, some BuildErr.fileNotFound) ∧
    buildErr [] c9env c9state = none :=
  ⟨(restore_unguarded_build_guarded c9renv [] c9env c9state rfl rfl rfl rfl).1,
   (restore_unguarded_build_guarded c9renv [] c9env c9state rfl rfl rfl rfl).2
     c9state⟩

end IdomClient
